import Mathlib

/-!
Verification of the Jackett Go client library (github.com/cehbz/jackett).

The development shallowly embeds the client found in `client.go`: the data
model, the Torznab XML field-decoding rules, the normalizer that maps the
decoded Torznab types to the unified `Indexer` model, and the
request-construction / response-handling logic of each public operation.

Modelling conventions:
* Go slices are `Option (List _)` where the nil/empty distinction is
  observable (`none` is a nil slice, `some []` a non-nil empty slice);
  Go pointers are `Option _`.
* URLs are structured values (scheme, host, path, query); `url.Parse`
  and the JSON/XML text-level parsers are oracles passed as parameters,
  since they live in the Go standard library, not in this repository.
* The HTTP transport (`http.Client`) is a field of the client holding a
  function from the request URL to a response or a network error, so a
  theorem can speak about exactly which request an operation issues.
* Fallible Go paths return `Except String _`, carrying the error message
  the code formats with `fmt.Errorf`.
-/

namespace Jackett

/-- An HTTP response as the client observes it: status code plus raw body. -/
structure HTTPResponse where
  status : Nat
  body : String
deriving DecidableEq

/-- A parsed URL (`net/url.URL`), reduced to the components the client
reads or writes: scheme, host, path and the decoded query values. -/
structure URL where
  scheme : String
  host : String
  path : String
  query : List (String × String)
deriving DecidableEq

/-- `url.Values.Get`: first value for the key, `""` when absent. -/
def valuesGet : List (String × String) → String → String
  | [], _ => ""
  | p :: rest, k => if p.1 = k then p.2 else valuesGet rest k

/-- `url.Values.Set`: drop every pair for the key, add the single given one. -/
def valuesSet : List (String × String) → String → String → List (String × String)
  | [], k, v => [(k, v)]
  | p :: rest, k, v =>
    if p.1 = k then valuesSet rest k v else p :: valuesSet rest k v

/-! ## Unified data model (`client.go`, JSON-facing structures)

Field names follow the Go source; Go's `Type` field is rendered `type'`
because `Type` is reserved in Lean.  Go pointer fields (`*T`) are
`Option T`; Go slices whose nil/empty distinction the claims observe are
`Option (List T)` with `none` standing for a nil slice. -/

/-- One per-indexer status entry inside `SearchResponse.Indexers`. -/
structure SearchIndexerStatus where
  ID : String
  Name : String
  Status : Int
  Results : Int
  Error : String
deriving DecidableEq

/-- `SearchResult`: one torrent search result (JSON-decoded). -/
structure SearchResult where
  Title : String
  Size : Int
  Seeders : Int
  Peers : Int
  Link : String
  MagnetURI : String
  GUID : String
  PublishDate : String
  Tracker : String
  Category : List Int
  CategoryDesc : String
  BlackholeLink : Option String
  Gain : Float
  InfoHash : String
  MinimumRatio : Option Float
  MinimumSeedTime : Option Int
  DownloadVolumeFactor : Float
  UploadVolumeFactor : Float
  FirstSeen : String
  TrackerId : String
  TrackerType : String
  Details : String
  Files : Option Int
  Grabs : Option Int
  Description : Option String
  RageID : Option Int
  TVDBId : Option Int
  Imdb : Option Int
  TMDb : Option Int
  TVMazeId : Option Int
  TraktId : Option Int
  DoubanId : Option Int
  Genres : Option (List String)
  Languages : List String
  Subs : List String
  Year : Option Int
  Author : Option String
  BookTitle : Option String
  Publisher : Option String
  Artist : Option String
  Album : Option String
  Label : Option String
  Track : Option String
  Poster : Option String

/-- `SearchResponse`: results plus per-indexer status summaries. -/
structure SearchResponse where
  Results : List SearchResult
  Indexers : List SearchIndexerStatus

/-- `SearchType`: availability flag and supported params of one search mode. -/
structure SearchType where
  Available : String
  SupportedParams : String
deriving DecidableEq

/-- `Searching`: the per-search-mode table; Go `*SearchType` is `Option`. -/
structure Searching where
  Search : Option SearchType
  TVSearch : Option SearchType
  MovieSearch : Option SearchType
  MusicSearch : Option SearchType
  AudioSearch : Option SearchType
  BookSearch : Option SearchType
deriving DecidableEq

/-- `Limits`: default/max result-count limits, kept as text. -/
structure Limits where
  Default : String
  Max : String
deriving DecidableEq

/-- `Caps`: capabilities block of an indexer. -/
structure Caps where
  Server : String
  Limits : Limits
  Searching : Searching
deriving DecidableEq

/-- `Subcat`: numeric id plus name. -/
structure Subcat where
  ID : Int
  Name : String
deriving DecidableEq

/-- `Category`: numeric id, name, and a (possibly nil) subcategory slice. -/
structure Category where
  ID : Int
  Name : String
  Subcats : Option (List Subcat)
deriving DecidableEq

/-- `Indexer`: the unified indexer model.  `Caps` is a Go pointer
(`*Caps`), `Categories` a Go slice, so both are `Option`. -/
structure Indexer where
  ID : String
  Name : String
  Description : String
  type' : String
  Configured : Bool
  SiteLink : String
  Language : String
  Caps : Option Caps
  Categories : Option (List Category)
deriving DecidableEq

/-! ## Torznab XML-decoded model (`client.go`, `Torznab*` structures) -/

/-- `TorznabSearchType`: available/supportedParams attributes. -/
structure TorznabSearchType where
  Available : String
  SupportedParams : String
deriving DecidableEq

/-- `TorznabSearching`: six optional search-mode elements. -/
structure TorznabSearching where
  Search : Option TorznabSearchType
  TVSearch : Option TorznabSearchType
  MovieSearch : Option TorznabSearchType
  MusicSearch : Option TorznabSearchType
  AudioSearch : Option TorznabSearchType
  BookSearch : Option TorznabSearchType
deriving DecidableEq

/-- `TorznabServer`: title attribute of the server element. -/
structure TorznabServer where
  Title : String
deriving DecidableEq

/-- `TorznabLimits`: default/max attributes of the limits element. -/
structure TorznabLimits where
  Default : String
  Max : String
deriving DecidableEq

/-- `TorznabSubcat`: id/name attributes of one subcat element. -/
structure TorznabSubcat where
  ID : Int
  Name : String
deriving DecidableEq

/-- `TorznabCategory`: id/name attributes and the subcat slice. -/
structure TorznabCategory where
  ID : Int
  Name : String
  Subcats : Option (List TorznabSubcat)
deriving DecidableEq

/-- `TorznabCategories`: wrapper holding the category slice. -/
structure TorznabCategories where
  Categories : Option (List TorznabCategory)
deriving DecidableEq

/-- `TorznabCaps`: caps element of one indexer. -/
structure TorznabCaps where
  Server : TorznabServer
  Limits : TorznabLimits
  Searching : TorznabSearching
  Categories : TorznabCategories
deriving DecidableEq

/-- `TorznabIndexer`: one decoded indexer element. -/
structure TorznabIndexer where
  ID : String
  Configured : Bool
  Title : String
  Description : String
  Link : String
  Language : String
  type' : String
  Caps : TorznabCaps
deriving DecidableEq

/-- `TorznabIndexersResponse`: the decoded root element. -/
structure TorznabIndexersResponse where
  Indexers : Option (List TorznabIndexer)
deriving DecidableEq


/-! ## XML element trees and the `encoding/xml` field mapping

`xml.Unmarshal` is text parsing (a standard-library concern, passed to the
operations as an oracle `String → Except String XMLElem`) followed by the
struct-tag-driven mapping below.  The mapping walks an element's children
in document order; a repeated element overwrites scalar fields and appends
to slice fields, exactly as the streaming Go decoder does, so every decode
function threads the value built so far. -/

/-- A well-formed XML element: name, attributes, character data, children. -/
inductive XMLElem where
  | mk (name : String) (attrs : List (String × String)) (text : String)
      (children : List XMLElem)

/-- Element name. -/
def XMLElem.name : XMLElem → String
  | .mk n _ _ _ => n

/-- Element attributes. -/
def XMLElem.attrs : XMLElem → List (String × String)
  | .mk _ a _ _ => a

/-- Character data of the element. -/
def XMLElem.text : XMLElem → String
  | .mk _ _ t _ => t

/-- Child elements. -/
def XMLElem.children : XMLElem → List XMLElem
  | .mk _ _ _ c => c

/-- Attribute lookup: `some` value when present. -/
def attrOpt (e : XMLElem) (k : String) : Option String :=
  (e.attrs.find? (fun p => p.1 == k)).map (fun p => p.2)

/-- A string attribute: absent attributes leave the zero value `""`. -/
def attrStr (e : XMLElem) (k : String) : String :=
  (attrOpt e k).getD ""

/-- `strconv.ParseInt (base 10, 64 bit)` as `encoding/xml` applies it to an
integer-typed attribute: optional sign, then one or more decimal digits,
within the signed 64-bit range. -/
def parseGoInt (s : String) : Except String Int :=
  let digits (cs : List Char) : Except String Nat :=
    if cs ≠ [] ∧ cs.all Char.isDigit then
      .ok (cs.foldl (fun n c => n * 10 + (c.toNat - 48)) 0)
    else .error ("strconv.ParseInt: parsing " ++ s ++ ": invalid syntax")
  let range (i : Int) : Except String Int :=
    if -(2 ^ 63) ≤ i ∧ i ≤ 2 ^ 63 - 1 then .ok i
    else .error ("strconv.ParseInt: parsing " ++ s ++ ": value out of range")
  match (s.trim).data with
  | '+' :: rest => (digits rest).bind (fun n => range (Int.ofNat n))
  | '-' :: rest => (digits rest).bind (fun n => range (-(Int.ofNat n)))
  | cs => (digits cs).bind (fun n => range (Int.ofNat n))

/-- `strconv.ParseBool` as `encoding/xml` applies it to a bool attribute. -/
def parseGoBool (s : String) : Except String Bool :=
  let t := s.trim
  if t ∈ ["1", "t", "T", "true", "TRUE", "True"] then .ok true
  else if t ∈ ["0", "f", "F", "false", "FALSE", "False"] then .ok false
  else .error ("strconv.ParseBool: parsing " ++ s ++ ": invalid syntax")

/-- An integer attribute: absent leaves the zero value `0`; present but
malformed aborts the whole unmarshal, as in Go. -/
def attrInt (e : XMLElem) (k : String) : Except String Int :=
  match attrOpt e k with
  | none => .ok 0
  | some s => parseGoInt s

/-- A bool attribute: absent leaves the zero value `false`. -/
def attrBool (e : XMLElem) (k : String) : Except String Bool :=
  match attrOpt e k with
  | none => .ok false
  | some s => parseGoBool s

/-- Fold a fallible per-child step over a child list, aborting at the first
error — the shape of the streaming decoder's walk. -/
def exFold (step : α → XMLElem → Except String α) :
    Except String α → List XMLElem → Except String α
  | acc, [] => acc
  | .error e, _ :: _ => .error e
  | .ok a, ch :: rest => exFold step (step a ch) rest

/-- Append one decoded element to a Go slice field (a nil slice becomes a
one-element slice). -/
def goAppend (o : Option (List α)) (a : α) : Option (List α) :=
  some (o.getD [] ++ [a])

/-- Decode one `subcat` element (`TorznabSubcat`). -/
def decodeSubcat (e : XMLElem) : Except String TorznabSubcat :=
  (attrInt e "id").map (fun id => { ID := id, Name := attrStr e "name" })

/-- Decode one `category` element (`TorznabCategory`): id/name attributes,
then the `subcat` children in order. -/
def decodeCategory (e : XMLElem) : Except String TorznabCategory :=
  (attrInt e "id").bind (fun id =>
    (exFold
        (fun subs ch =>
          if ch.name == "subcat" then
            (decodeSubcat ch).map (fun s => goAppend subs s)
          else .ok subs)
        (.ok none) e.children).map
      (fun subs => { ID := id, Name := attrStr e "name", Subcats := subs }))

/-- Unmarshal a `categories` element into the (possibly already partly
filled) category slice: each `category` child appends. -/
def decodeCategoriesInto (acc : Option (List TorznabCategory)) (e : XMLElem) :
    Except String (Option (List TorznabCategory)) :=
  exFold
    (fun cats ch =>
      if ch.name == "category" then
        (decodeCategory ch).map (fun c => goAppend cats c)
      else .ok cats)
    (.ok acc) e.children

/-- Unmarshal one search-mode element into a `*TorznabSearchType` target:
Go allocates the pointee on first occurrence (zero-valued) and then assigns
only the attributes present on the element. -/
def decodeSearchTypeInto (old : Option TorznabSearchType) (e : XMLElem) :
    TorznabSearchType :=
  let b := old.getD { Available := "", SupportedParams := "" }
  { Available := (attrOpt e "available").getD b.Available
    SupportedParams := (attrOpt e "supportedParams").getD b.SupportedParams }

/-- Per-child step of unmarshalling a `searching` element. -/
def searchingStep (s : TorznabSearching) (ch : XMLElem) : TorznabSearching :=
  if ch.name == "search" then
    { s with Search := some (decodeSearchTypeInto s.Search ch) }
  else if ch.name == "tv-search" then
    { s with TVSearch := some (decodeSearchTypeInto s.TVSearch ch) }
  else if ch.name == "movie-search" then
    { s with MovieSearch := some (decodeSearchTypeInto s.MovieSearch ch) }
  else if ch.name == "music-search" then
    { s with MusicSearch := some (decodeSearchTypeInto s.MusicSearch ch) }
  else if ch.name == "audio-search" then
    { s with AudioSearch := some (decodeSearchTypeInto s.AudioSearch ch) }
  else if ch.name == "book-search" then
    { s with BookSearch := some (decodeSearchTypeInto s.BookSearch ch) }
  else s

/-- Unmarshal a `searching` element into the searching table. -/
def decodeSearchingInto (acc : TorznabSearching) (e : XMLElem) :
    TorznabSearching :=
  e.children.foldl searchingStep acc

/-- Per-child step of unmarshalling a `caps` element. -/
def capsStep (cp : TorznabCaps) (ch : XMLElem) : Except String TorznabCaps :=
  if ch.name == "server" then
    .ok { cp with Server := { Title := (attrOpt ch "title").getD cp.Server.Title } }
  else if ch.name == "limits" then
    .ok { cp with Limits :=
      { Default := (attrOpt ch "default").getD cp.Limits.Default
        Max := (attrOpt ch "max").getD cp.Limits.Max } }
  else if ch.name == "searching" then
    .ok { cp with Searching := decodeSearchingInto cp.Searching ch }
  else if ch.name == "categories" then
    (decodeCategoriesInto cp.Categories.Categories ch).map
      (fun cats => { cp with Categories := { Categories := cats } })
  else .ok cp

/-- Unmarshal a `caps` element into the caps value. -/
def decodeCapsInto (acc : TorznabCaps) (e : XMLElem) :
    Except String TorznabCaps :=
  exFold capsStep (.ok acc) e.children

/-- The zero value of `TorznabCaps` (what a missing `caps` element leaves). -/
def torznabCapsZero : TorznabCaps :=
  { Server := { Title := "" }
    Limits := { Default := "", Max := "" }
    Searching :=
      { Search := none, TVSearch := none, MovieSearch := none
        MusicSearch := none, AudioSearch := none, BookSearch := none }
    Categories := { Categories := none } }

/-- Per-child step of unmarshalling an `indexer` element. -/
def indexerStep (t : TorznabIndexer) (ch : XMLElem) :
    Except String TorznabIndexer :=
  if ch.name == "title" then .ok { t with Title := ch.text }
  else if ch.name == "description" then .ok { t with Description := ch.text }
  else if ch.name == "link" then .ok { t with Link := ch.text }
  else if ch.name == "language" then .ok { t with Language := ch.text }
  else if ch.name == "type" then .ok { t with type' := ch.text }
  else if ch.name == "caps" then
    (decodeCapsInto t.Caps ch).map (fun cp => { t with Caps := cp })
  else .ok t

/-- Decode one `indexer` element (`TorznabIndexer`): the `id`/`configured`
attributes, then the children in document order. -/
def decodeIndexer (e : XMLElem) : Except String TorznabIndexer :=
  (attrBool e "configured").bind (fun conf =>
    exFold indexerStep
      (.ok
        { ID := attrStr e "id", Configured := conf, Title := ""
          Description := "", Link := "", Language := "", type' := ""
          Caps := torznabCapsZero })
      e.children)

/-- Decode the root `indexers` element (`TorznabIndexersResponse`); a root
with any other name is an unmarshal error, as with Go's `XMLName` check. -/
def decodeIndexersResponse (root : XMLElem) :
    Except String TorznabIndexersResponse :=
  if root.name ≠ "indexers" then
    .error ("expected element type <indexers> but have <" ++ root.name ++ ">")
  else
    (exFold
        (fun idxs ch =>
          if ch.name == "indexer" then
            (decodeIndexer ch).map (fun t => goAppend idxs t)
          else .ok idxs)
        (.ok none) root.children).map
      (fun idxs => { Indexers := idxs })


/-! ## Normalizer (`GetIndexers` conversion loop and `convertSearchType`) -/

/-- `convertSearchType`: nil maps to nil, otherwise both fields are copied. -/
def convertSearchType : Option TorznabSearchType → Option SearchType
  | none => none
  | some t => some { Available := t.Available, SupportedParams := t.SupportedParams }

/-- The innermost conversion loop body: `Subcat(sub)`. -/
def normalizeSubcat (sub : TorznabSubcat) : Subcat :=
  { ID := sub.ID, Name := sub.Name }

/-- The per-category conversion loop body: copy id/name, convert the
subcat slice (always allocated with `make`). -/
def normalizeCategory (cat : TorznabCategory) : Category :=
  { ID := cat.ID
    Name := cat.Name
    Subcats := some ((cat.Subcats.getD []).map normalizeSubcat) }

/-- The caps value the conversion loop allocates with `&Caps{...}`. -/
def normCaps (tIdx : TorznabIndexer) : Caps :=
  { Server := tIdx.Caps.Server.Title
    Limits :=
      { Default := tIdx.Caps.Limits.Default
        Max := tIdx.Caps.Limits.Max }
    Searching :=
      { Search := convertSearchType tIdx.Caps.Searching.Search
        TVSearch := convertSearchType tIdx.Caps.Searching.TVSearch
        MovieSearch := convertSearchType tIdx.Caps.Searching.MovieSearch
        MusicSearch := convertSearchType tIdx.Caps.Searching.MusicSearch
        AudioSearch := convertSearchType tIdx.Caps.Searching.AudioSearch
        BookSearch := convertSearchType tIdx.Caps.Searching.BookSearch } }

/-- The body of the `GetIndexers` conversion loop for one indexer: build the
caps block (always allocated with `&Caps{...}`), then the category slice
(always allocated with `make`), then the unified `Indexer`. -/
def normalizeIndexer (tIdx : TorznabIndexer) : Indexer :=
  let caps : Caps := normCaps tIdx
  let categories : List Category :=
    (tIdx.Caps.Categories.Categories.getD []).map normalizeCategory
  { ID := tIdx.ID
    Name := tIdx.Title
    Description := tIdx.Description
    type' := tIdx.type'
    Configured := tIdx.Configured
    SiteLink := tIdx.Link
    Language := tIdx.Language
    Caps := some caps
    Categories := some categories }

/-- The whole conversion loop of `GetIndexers`: one output `Indexer` per
decoded Torznab indexer, in input order. -/
def normalizeIndexers (tr : TorznabIndexersResponse) : List Indexer :=
  (tr.Indexers.getD []).map normalizeIndexer

/-! ## The client and its operations

The client as constructed by `NewClient`: base address, API key and the
transport handle.  Each operation is a state transformer returning the
client it leaves behind next to its result; the Go methods never assign to
the receiver's fields, which the frame theorem below makes explicit. -/

/-- The `Client` structure (second, Torznab-based variant of `client.go`). -/
structure GoClient where
  transport : URL → Except String HTTPResponse
  baseURL : String
  apiKey : String

/-- `doGet`'s URL surgery: take the parsed base address, overwrite its path
with the endpoint and its raw query with the encoded parameters. -/
def requestURL (baseU : URL) (endpoint : String) (q : List (String × String)) : URL :=
  { baseU with path := endpoint, query := q }

/-- `doGet`: parse the base URL, build the request URL, run the transport,
reject any status other than 200 with a message carrying the code and the
body, else return the body. -/
def doGet (parseURL : String → Except String URL) (c : GoClient)
    (endpoint : String) (q : List (String × String)) : Except String String :=
  match parseURL c.baseURL with
  | .error e => .error ("failed to parse base URL: " ++ e)
  | .ok apiURL =>
    match c.transport (requestURL apiURL endpoint q) with
    | .error e => .error ("request failed: " ++ e)
    | .ok resp =>
      if resp.status ≠ 200 then
        .error ("unexpected response code: " ++
          (toString resp.status ++ (", response: " ++ resp.body)))
      else .ok resp.body

/-- Query parameters of `Search`: `apikey`, then `Query`. -/
def searchParams (c : GoClient) (query : String) : List (String × String) :=
  valuesSet (valuesSet [] "apikey" c.apiKey) "Query" query

/-- `Search`: GET the all-indexers results endpoint, then JSON-decode. -/
def searchOp (parseURL : String → Except String URL)
    (jsonDecode : String → Except String SearchResponse)
    (c : GoClient) (query : String) : GoClient × Except String SearchResponse :=
  (c,
    match doGet parseURL c "/api/v2.0/indexers/all/results" (searchParams c query) with
    | .error e => .error ("search error: " ++ e)
    | .ok body =>
      match jsonDecode body with
      | .error e => .error ("failed to decode search response: " ++ e)
      | .ok r => .ok r)

/-- `SearchWithIndexer`: same as `Search` on one indexer's endpoint, the
indexer id embedded verbatim in the path. -/
def searchWithIndexerOp (parseURL : String → Except String URL)
    (jsonDecode : String → Except String SearchResponse)
    (c : GoClient) (indexerID query : String) :
    GoClient × Except String SearchResponse :=
  (c,
    match doGet parseURL c ("/api/v2.0/indexers/" ++ (indexerID ++ "/results"))
        (searchParams c query) with
    | .error e => .error ("search error: " ++ e)
    | .ok body =>
      match jsonDecode body with
      | .error e => .error ("failed to decode search response: " ++ e)
      | .ok r => .ok r)

/-- Query parameters of `GetIndexers`: `apikey`, `t=indexers`,
`configured=true`, set in that order. -/
def getIndexersParams (c : GoClient) : List (String × String) :=
  valuesSet (valuesSet (valuesSet [] "apikey" c.apiKey) "t" "indexers")
    "configured" "true"

/-- The one request `GetIndexers` issues. -/
def getIndexersRequest (baseU : URL) (c : GoClient) : URL :=
  requestURL baseU "/api/v2.0/indexers/all/results/torznab" (getIndexersParams c)

/-- `GetIndexers`: GET the Torznab indexers endpoint, XML-decode
(text parsing oracle, then the field mapping), then normalize. -/
def getIndexersOp (parseURL : String → Except String URL)
    (xmlText : String → Except String XMLElem)
    (c : GoClient) : GoClient × Except String (List Indexer) :=
  (c,
    match doGet parseURL c "/api/v2.0/indexers/all/results/torznab"
        (getIndexersParams c) with
    | .error e => .error ("get indexers error: " ++ e)
    | .ok body =>
      match xmlText body with
      | .error e => .error ("failed to decode indexers response: " ++ e)
      | .ok root =>
        match decodeIndexersResponse root with
        | .error e => .error ("failed to decode indexers response: " ++ e)
        | .ok tr => .ok (normalizeIndexers tr))

/-- Result of `DownloadTorrent`: the body bytes, an error, or the runtime
fault the Go code hits when the stored base address does not parse (it
ignores that error and dereferences the nil URL). -/
inductive DownloadResult where
  | ok (body : String)
  | err (msg : String)
  | nilBaseFault
deriving DecidableEq

/-- The URL `DownloadTorrent` fetches: an external host is fetched as
given; a link on the configured host gets the API key appended unless the
query already carries one. -/
def downloadTarget (c : GoClient) (linkU baseU : URL) : URL :=
  if linkU.host ≠ baseU.host then linkU
  else if valuesGet linkU.query "apikey" = "" then
    { linkU with query := valuesSet linkU.query "apikey" c.apiKey }
  else linkU

/-- The response handling both branches of `DownloadTorrent` share. -/
def downloadHandle (r : Except String HTTPResponse) : DownloadResult :=
  match r with
  | .error e => .err ("download error: " ++ e)
  | .ok resp =>
    if resp.status ≠ 200 then
      .err ("download failed (" ++ (toString resp.status ++ ("): " ++ resp.body)))
    else .ok resp.body

/-- `DownloadTorrent`: parse the link, pick the fetch target by comparing
hosts, fetch, and hand the response to the shared handling. -/
def downloadTorrentOp (parseURL : String → Except String URL)
    (c : GoClient) (link : String) : GoClient × DownloadResult :=
  (c,
    match parseURL link with
    | .error e => .err ("invalid download link: " ++ e)
    | .ok linkU =>
      match parseURL c.baseURL with
      | .error _ => .nilBaseFault
      | .ok baseU => downloadHandle (c.transport (downloadTarget c linkU baseU)))

/-- A dynamic JSON value, Go's `interface{}` as `encoding/json` decodes it
(numbers become `float64`). -/
inductive JSONValue where
  | null
  | bool (b : Bool)
  | num (x : Float)
  | str (s : String)
  | arr (xs : List JSONValue)
  | obj (fields : List (String × JSONValue))

/-- `GetServerConfig`: GET the server config endpoint, then JSON-decode
into an open-ended key/value map (the decode itself is an oracle). -/
def getServerConfigOp (parseURL : String → Except String URL)
    (configDecode : String → Except String (List (String × JSONValue)))
    (c : GoClient) : GoClient × Except String (List (String × JSONValue)) :=
  (c,
    match doGet parseURL c "/api/v2.0/server/config"
        (valuesSet [] "apikey" c.apiKey) with
    | .error e => .error ("get server config error: " ++ e)
    | .ok body =>
      match configDecode body with
      | .error e => .error ("failed to decode server config: " ++ e)
      | .ok m => .ok m)

/-- `TestConnection` (from the first, JSON-based variant of `client.go`,
whose unused mutex field is not modelled): GET the indexers endpoint with
only `apikey`, discard the body, wrap any failure. -/
def testConnectionOp (parseURL : String → Except String URL)
    (c : GoClient) : GoClient × Except String Unit :=
  (c,
    match doGet parseURL c "/api/v2.0/indexers" (valuesSet [] "apikey" c.apiKey) with
    | .error e => .error ("connection test failed: " ++ e)
    | .ok _ => .ok ())

/-- The one request `TestConnection` issues. -/
def testConnectionRequest (baseU : URL) (c : GoClient) : URL :=
  requestURL baseU "/api/v2.0/indexers" (valuesSet [] "apikey" c.apiKey)


/-- `needle` occurs verbatim inside `hay` (substring containment, the
guarantee callers get for pattern-matching on error text). -/
def isSubstr (needle hay : String) : Prop :=
  ∃ p s, hay = p ++ (needle ++ s)

/-! ## Views used by the theorem statements -/

/-- The decoded indexer slice, as the conversion loop ranges over it. -/
def inputIndexers (tr : TorznabIndexersResponse) : List TorznabIndexer :=
  tr.Indexers.getD []

/-- The categories of a normalized indexer, as a caller iterates them. -/
def indexerCats (idx : Indexer) : List Category :=
  idx.Categories.getD []

/-- The decoded categories of a Torznab indexer. -/
def torznabCats (t : TorznabIndexer) : List TorznabCategory :=
  t.Caps.Categories.Categories.getD []

/-- The subcategories of a normalized category. -/
def catSubcats (c : Category) : List Subcat :=
  c.Subcats.getD []

/-- The decoded subcategories of a Torznab category. -/
def torznabSubcats (c : TorznabCategory) : List TorznabSubcat :=
  c.Subcats.getD []

/-! ## Concrete sample data, used by the witness theorems -/

/-- A category with two subcategories. -/
def sampleCatMovies : TorznabCategory :=
  { ID := 2000, Name := "Movies"
    Subcats := some [{ ID := 2040, Name := "Movies/HD" },
                     { ID := 2045, Name := "Movies/UHD" }] }

/-- A category with a nil subcategory slice. -/
def sampleCatTV : TorznabCategory :=
  { ID := 5000, Name := "TV", Subcats := none }

/-- A fully populated decoded indexer. -/
def sampleIndexerFull : TorznabIndexer :=
  { ID := "ix1", Configured := true, Title := "Indexer One"
    Description := "first", Link := "http://one.example/"
    Language := "en-US", type' := "public"
    Caps :=
      { Server := { Title := "Jackett" }
        Limits := { Default := "100", Max := "100" }
        Searching :=
          { Search := some { Available := "yes", SupportedParams := "q" }
            TVSearch := some { Available := "yes", SupportedParams := "q,season,ep" }
            MovieSearch := none, MusicSearch := none
            AudioSearch := none, BookSearch := none }
        Categories := { Categories := some [sampleCatMovies, sampleCatTV] } } }

/-- A decoded indexer carrying only an id and a title. -/
def sampleIndexerBare : TorznabIndexer :=
  { ID := "ix2", Configured := false, Title := "Two", Description := ""
    Link := "", Language := "", type' := "", Caps := torznabCapsZero }

/-- A decoded response with both sample indexers, in order. -/
def sampleResponse : TorznabIndexersResponse :=
  { Indexers := some [sampleIndexerFull, sampleIndexerBare] }

/-- A constant URL-parse oracle. -/
def constParse (u : URL) : String → Except String URL := fun _ => .ok u

/-- A constant transport: every request gets the same response. -/
def constTransport (r : HTTPResponse) : URL → Except String HTTPResponse :=
  fun _ => .ok r

/-- A constant XML text-parse oracle. -/
def constXml (x : XMLElem) : String → Except String XMLElem := fun _ => .ok x

/-- A client against a local Jackett with a fixed canned response. -/
def clientWith (r : HTTPResponse) : GoClient :=
  { transport := constTransport r
    baseURL := "http://localhost:9117"
    apiKey := "test-api-key" }

/-- The parsed base address of `clientWith`. -/
def sampleBase : URL :=
  { scheme := "http", host := "localhost:9117", path := "", query := [] }

/-- A same-host download link lacking an `apikey` parameter. -/
def dlLinkLocal : URL :=
  { scheme := "http", host := "localhost:9117", path := "/dl/test"
    query := [("file", "x")] }

/-- A same-host download link that already carries an `apikey` parameter. -/
def dlLinkKeyed : URL :=
  { scheme := "http", host := "localhost:9117", path := "/dl/test"
    query := [("apikey", "already")] }

/-- An external download link. -/
def dlLinkExternal : URL :=
  { scheme := "https", host := "external.com", path := "/torrent.torrent"
    query := [] }

/-- An `indexer` element carrying only an id attribute and a title child. -/
def xmlIndexerMinimal : XMLElem :=
  .mk "indexer" [("id", "mini")] "" [.mk "title" [] "Mini" []]

/-- What `xmlIndexerMinimal` decodes to. -/
def torznabIndexerMinimal : TorznabIndexer :=
  { ID := "mini", Configured := false, Title := "Mini", Description := ""
    Link := "", Language := "", type' := "", Caps := torznabCapsZero }

/-- A root `indexers` element holding the minimal indexer. -/
def xmlRootMinimal : XMLElem :=
  .mk "indexers" [] "" [xmlIndexerMinimal]

/-- A parse oracle resolving the local base address and one external link. -/
def dlParse : String → Except String URL := fun str =>
  if str = "http://localhost:9117" then .ok sampleBase else .ok dlLinkExternal

/-- The upstream body a misconfigured API key produces on the wire. -/
def invalidKeyBody : String :=
  "<error code=\"100\" description=\"Invalid API Key\" />"

/-- No element of the given search mode occurs anywhere on the
`indexer → caps → searching` path of the element. -/
def missingSearchMode (e : XMLElem) (nm : String) : Prop :=
  ∀ ch ∈ e.children, ch.name = "caps" →
    ∀ s ∈ ch.children, s.name = "searching" →
      ∀ x ∈ s.children, x.name ≠ nm

instance (e : XMLElem) (nm : String) : Decidable (missingSearchMode e nm) := by
  unfold missingSearchMode
  infer_instance

/-! ## Helper lemmas -/

theorem isSubstr_head (n s : String) : isSubstr n (n ++ s) :=
  ⟨"", s, by rw [String.empty_append]⟩

theorem isSubstr_wrap (pre : String) {n h : String} :
    isSubstr n h → isSubstr n (pre ++ h) := by
  rintro ⟨p, s, rfl⟩
  exact ⟨pre ++ p, s, by rw [String.append_assoc]⟩

theorem valuesGet_set_self (q : List (String × String)) (k v : String) :
    valuesGet (valuesSet q k v) k = v := by
  induction q with
  | nil => simp [valuesSet, valuesGet]
  | cons p rest ih =>
    by_cases hp : p.1 = k <;> simp [valuesSet, valuesGet, hp, ih]

theorem valuesGet_set_other (q : List (String × String)) (k v k' : String)
    (h : k' ≠ k) : valuesGet (valuesSet q k v) k' = valuesGet q k' := by
  induction q with
  | nil => simp [valuesSet, valuesGet, Ne.symm h]
  | cons p rest ih =>
    by_cases hp : p.1 = k
    · have hp' : p.1 ≠ k' := by rw [hp]; exact Ne.symm h
      simp [valuesSet, valuesGet, hp, hp', ih, Ne.symm h]
    · by_cases hk : p.1 = k' <;> simp [valuesSet, valuesGet, hp, hk, ih, h]

theorem doGet_non200 (parseURL : String → Except String URL) (c : GoClient)
    (endpoint : String) (q : List (String × String)) (baseU : URL)
    (resp : HTTPResponse)
    (h1 : parseURL c.baseURL = .ok baseU)
    (h2 : c.transport (requestURL baseU endpoint q) = .ok resp)
    (h3 : resp.status ≠ 200) :
    doGet parseURL c endpoint q =
      .error ("unexpected response code: " ++
        (toString resp.status ++ (", response: " ++ resp.body))) := by
  simp only [doGet, h1, h2]
  rw [if_pos h3]

theorem doGet_200 (parseURL : String → Except String URL) (c : GoClient)
    (endpoint : String) (q : List (String × String)) (baseU : URL)
    (resp : HTTPResponse)
    (h1 : parseURL c.baseURL = .ok baseU)
    (h2 : c.transport (requestURL baseU endpoint q) = .ok resp)
    (h3 : resp.status = 200) :
    doGet parseURL c endpoint q = .ok resp.body := by
  simp only [doGet, h1, h2]
  rw [if_neg (by simp [h3])]

theorem doGet_neterr (parseURL : String → Except String URL) (c : GoClient)
    (endpoint : String) (q : List (String × String)) (baseU : URL) (e : String)
    (h1 : parseURL c.baseURL = .ok baseU)
    (h2 : c.transport (requestURL baseU endpoint q) = .error e) :
    doGet parseURL c endpoint q = .error ("request failed: " ++ e) := by
  simp only [doGet, h1, h2]

theorem exFold_error (step : α → XMLElem → Except String α) (e : String)
    (l : List XMLElem) : exFold step (.error e) l = .error e := by
  cases l <;> rfl

theorem exFold_ok_preserve {γ : Type _} (step : α → XMLElem → Except String α)
    (f : α → γ) (P : XMLElem → Prop)
    (hstep : ∀ a ch, P ch → ∀ a', step a ch = .ok a' → f a' = f a) :
    ∀ (l : List XMLElem) (a a' : α), (∀ ch ∈ l, P ch) →
      exFold step (.ok a) l = .ok a' → f a' = f a := by
  intro l
  induction l with
  | nil =>
    intro a a' _ h
    simp only [exFold, Except.ok.injEq] at h
    rw [h]
  | cons ch rest ih =>
    intro a a' hP h
    simp only [exFold] at h
    cases hs : step a ch with
    | error e =>
      rw [hs, exFold_error] at h
      cases h
    | ok b =>
      rw [hs] at h
      have h1 := ih b a' (fun x hx => hP x (List.mem_cons_of_mem _ hx)) h
      have h2 := hstep a ch (hP ch (List.mem_cons_self _ _)) b hs
      rw [h1, h2]

theorem foldl_preserve {γ : Type _} (step : α → XMLElem → α) (f : α → γ)
    (P : XMLElem → Prop) (hstep : ∀ a ch, P ch → f (step a ch) = f a) :
    ∀ (l : List XMLElem) (a : α), (∀ ch ∈ l, P ch) →
      f (l.foldl step a) = f a := by
  intro l
  induction l with
  | nil => intro a _; rfl
  | cons ch rest ih =>
    intro a hP
    have h1 := ih (step a ch) (fun x hx => hP x (List.mem_cons_of_mem _ hx))
    have h2 := hstep a ch (hP ch (List.mem_cons_self _ _))
    simpa [h2] using h1


theorem searchingStep_preserve_search (s : TorznabSearching) (ch : XMLElem)
    (h : ch.name ≠ "search") : (searchingStep s ch).Search = s.Search := by
  simp only [searchingStep, h, beq_iff_eq, if_false]
  repeat' split
  all_goals rfl

theorem searchingStep_preserve_tv (s : TorznabSearching) (ch : XMLElem)
    (h : ch.name ≠ "tv-search") : (searchingStep s ch).TVSearch = s.TVSearch := by
  simp only [searchingStep, beq_iff_eq]
  repeat' split
  all_goals simp_all

theorem searchingStep_preserve_movie (s : TorznabSearching) (ch : XMLElem)
    (h : ch.name ≠ "movie-search") :
    (searchingStep s ch).MovieSearch = s.MovieSearch := by
  simp only [searchingStep, beq_iff_eq]
  repeat' split
  all_goals simp_all

theorem searchingStep_preserve_music (s : TorznabSearching) (ch : XMLElem)
    (h : ch.name ≠ "music-search") :
    (searchingStep s ch).MusicSearch = s.MusicSearch := by
  simp only [searchingStep, beq_iff_eq]
  repeat' split
  all_goals simp_all

theorem searchingStep_preserve_audio (s : TorznabSearching) (ch : XMLElem)
    (h : ch.name ≠ "audio-search") :
    (searchingStep s ch).AudioSearch = s.AudioSearch := by
  simp only [searchingStep, beq_iff_eq]
  repeat' split
  all_goals simp_all

theorem searchingStep_preserve_book (s : TorznabSearching) (ch : XMLElem)
    (h : ch.name ≠ "book-search") :
    (searchingStep s ch).BookSearch = s.BookSearch := by
  simp only [searchingStep, beq_iff_eq]
  repeat' split
  all_goals simp_all

theorem decodeSearchingInto_preserve (g : TorznabSearching → Option TorznabSearchType)
    (nm : String)
    (hstep : ∀ s ch, ch.name ≠ nm → g (searchingStep s ch) = g s)
    (acc : TorznabSearching) (e : XMLElem)
    (h : ∀ x ∈ e.children, x.name ≠ nm) :
    g (decodeSearchingInto acc e) = g acc :=
  foldl_preserve searchingStep g (fun x => x.name ≠ nm) hstep e.children acc h

theorem capsStep_preserve (g : TorznabSearching → Option TorznabSearchType)
    (nm : String)
    (hstep : ∀ s ch, ch.name ≠ nm → g (searchingStep s ch) = g s)
    (cp : TorznabCaps) (ch : XMLElem)
    (h : ch.name = "searching" → ∀ x ∈ ch.children, x.name ≠ nm) :
    ∀ cp', capsStep cp ch = .ok cp' → g cp'.Searching = g cp.Searching := by
  intro cp' hcp
  simp only [capsStep, beq_iff_eq] at hcp
  split at hcp
  · cases hcp; rfl
  · split at hcp
    · cases hcp; rfl
    · split at hcp
      · cases hcp
        exact decodeSearchingInto_preserve g nm hstep _ _ (h (by assumption))
      · split at hcp
        · cases hdc : decodeCategoriesInto cp.Categories.Categories ch with
          | error e => rw [hdc] at hcp; cases hcp
          | ok cats => rw [hdc] at hcp; cases hcp; rfl
        · cases hcp; rfl

theorem decodeCapsInto_preserve (g : TorznabSearching → Option TorznabSearchType)
    (nm : String)
    (hstep : ∀ s ch, ch.name ≠ nm → g (searchingStep s ch) = g s)
    (acc : TorznabCaps) (e : XMLElem) (cp' : TorznabCaps)
    (hc : ∀ ch ∈ e.children, ch.name = "searching" → ∀ x ∈ ch.children, x.name ≠ nm)
    (hd : decodeCapsInto acc e = .ok cp') :
    g cp'.Searching = g acc.Searching :=
  exFold_ok_preserve capsStep (fun cp => g cp.Searching)
    (fun ch => ch.name = "searching" → ∀ x ∈ ch.children, x.name ≠ nm)
    (fun a ch hP a' hs => capsStep_preserve g nm hstep a ch hP a' hs)
    e.children acc cp' hc hd

theorem indexerStep_preserve_searching (g : TorznabSearching → Option TorznabSearchType)
    (nm : String)
    (hstep : ∀ s ch, ch.name ≠ nm → g (searchingStep s ch) = g s)
    (t : TorznabIndexer) (ch : XMLElem)
    (h : ch.name = "caps" → ∀ s ∈ ch.children, s.name = "searching" →
      ∀ x ∈ s.children, x.name ≠ nm) :
    ∀ t', indexerStep t ch = .ok t' → g t'.Caps.Searching = g t.Caps.Searching := by
  intro t' ht
  simp only [indexerStep, beq_iff_eq] at ht
  split at ht
  · cases ht; rfl
  · split at ht
    · cases ht; rfl
    · split at ht
      · cases ht; rfl
      · split at ht
        · cases ht; rfl
        · split at ht
          · cases ht; rfl
          · split at ht
            · cases hdc : decodeCapsInto t.Caps ch with
              | error e => rw [hdc] at ht; cases ht
              | ok cp =>
                rw [hdc] at ht; cases ht
                exact decodeCapsInto_preserve g nm hstep _ _ _ (h (by assumption)) hdc
            · cases ht; rfl

theorem decodeIndexer_searching_none (g : TorznabSearching → Option TorznabSearchType)
    (nm : String)
    (hstep : ∀ s ch, ch.name ≠ nm → g (searchingStep s ch) = g s)
    (hzero : g torznabCapsZero.Searching = none)
    (e : XMLElem) (t : TorznabIndexer)
    (h : missingSearchMode e nm) (hd : decodeIndexer e = .ok t) :
    g t.Caps.Searching = none := by
  simp only [decodeIndexer] at hd
  cases hb : attrBool e "configured" with
  | error er => rw [hb] at hd; cases hd
  | ok conf =>
    rw [hb] at hd
    simp only [Except.bind] at hd
    have := exFold_ok_preserve indexerStep (fun t => g t.Caps.Searching)
      (fun ch => ch.name = "caps" → ∀ s ∈ ch.children, s.name = "searching" →
        ∀ x ∈ s.children, x.name ≠ nm)
      (fun a ch hP a' hs => indexerStep_preserve_searching g nm hstep a ch hP a' hs)
      e.children _ t h hd
    exact this.trans hzero

theorem indexerStep_preserve_text (f : TorznabIndexer → String) (nm : String)
    (hf : ∀ (t : TorznabIndexer) (v : String) (cp : TorznabCaps),
      f { t with Caps := cp } = f t ∧
      (nm ≠ "title" → f { t with Title := v } = f t) ∧
      (nm ≠ "description" → f { t with Description := v } = f t) ∧
      (nm ≠ "link" → f { t with Link := v } = f t) ∧
      (nm ≠ "language" → f { t with Language := v } = f t) ∧
      (nm ≠ "type" → f { t with type' := v } = f t))
    (hnm : nm ∈ ["title", "description", "link", "language", "type"])
    (t : TorznabIndexer) (ch : XMLElem) (h : ch.name ≠ nm) :
    ∀ t', indexerStep t ch = .ok t' → f t' = f t := by
  intro t' ht
  simp only [indexerStep, beq_iff_eq] at ht
  split at ht
  · cases ht
    next he => exact ((hf t ch.text t.Caps).2.1 (by rintro rfl; exact h he))
  · split at ht
    · cases ht
      next he => exact ((hf t ch.text t.Caps).2.2.1 (by rintro rfl; exact h he))
    · split at ht
      · cases ht
        next he => exact ((hf t ch.text t.Caps).2.2.2.1 (by rintro rfl; exact h he))
      · split at ht
        · cases ht
          next he => exact ((hf t ch.text t.Caps).2.2.2.2.1 (by rintro rfl; exact h he))
        · split at ht
          · cases ht
            next he => exact ((hf t ch.text t.Caps).2.2.2.2.2 (by rintro rfl; exact h he))
          · split at ht
            · cases hdc : decodeCapsInto t.Caps ch with
              | error er => rw [hdc] at ht; cases ht
              | ok cp => rw [hdc] at ht; cases ht; exact (hf t "" cp).1
            · cases ht; rfl

theorem decodeIndexer_text_empty (f : TorznabIndexer → String) (nm : String)
    (hf : ∀ (t : TorznabIndexer) (v : String) (cp : TorznabCaps),
      f { t with Caps := cp } = f t ∧
      (nm ≠ "title" → f { t with Title := v } = f t) ∧
      (nm ≠ "description" → f { t with Description := v } = f t) ∧
      (nm ≠ "link" → f { t with Link := v } = f t) ∧
      (nm ≠ "language" → f { t with Language := v } = f t) ∧
      (nm ≠ "type" → f { t with type' := v } = f t))
    (hnm : nm ∈ ["title", "description", "link", "language", "type"])
    (hinit : ∀ (idv : String) (b : Bool),
      f { ID := idv, Configured := b, Title := "", Description := "", Link := ""
          Language := "", type' := "", Caps := torznabCapsZero } = "")
    (e : XMLElem) (t : TorznabIndexer)
    (h : ∀ ch ∈ e.children, ch.name ≠ nm) (hd : decodeIndexer e = .ok t) :
    f t = "" := by
  simp only [decodeIndexer] at hd
  cases hb : attrBool e "configured" with
  | error er => rw [hb] at hd; cases hd
  | ok conf =>
    rw [hb] at hd
    simp only [Except.bind] at hd
    have := exFold_ok_preserve indexerStep f (fun ch => ch.name ≠ nm)
      (fun a ch hP a' hs => indexerStep_preserve_text f nm hf hnm a ch hP a' hs)
      e.children _ t h hd
    exact this.trans (hinit _ _)


theorem indexerCats_normalize (t : TorznabIndexer) :
    indexerCats (normalizeIndexer t) = (torznabCats t).map normalizeCategory := rfl

theorem catSubcats_normalize (ct : TorznabCategory) :
    catSubcats (normalizeCategory ct) = (torznabSubcats ct).map normalizeSubcat := rfl

theorem normalizeIndexers_get (tr : TorznabIndexersResponse) (i : Nat)
    (hi : i < (inputIndexers tr).length) (ho : i < (normalizeIndexers tr).length) :
    (normalizeIndexers tr).get ⟨i, ho⟩ =
      normalizeIndexer ((inputIndexers tr).get ⟨i, hi⟩) := by
  simp [normalizeIndexers, inputIndexers, List.get_eq_getElem, List.getElem_map]

/-! ## Claim theorems -/

/-- C1: for every decoded Torznab indexer list, the `GetIndexers` normalizer
produces one category per `category` element with the same id and name, one
subcategory per `subcat` child with the same id and name, and preserves the
input order of indexers, categories and subcategories (position `i`/`j`/`k`
of the output corresponds to position `i`/`j`/`k` of the input). -/
theorem getIndexers_preserves_category_structure (tr : TorznabIndexersResponse) :
    (normalizeIndexers tr).length = (inputIndexers tr).length ∧
    ∀ (i : Nat) (hi : i < (inputIndexers tr).length)
      (ho : i < (normalizeIndexers tr).length),
      ((normalizeIndexers tr).get ⟨i, ho⟩).ID =
        ((inputIndexers tr).get ⟨i, hi⟩).ID ∧
      ((normalizeIndexers tr).get ⟨i, ho⟩).Name =
        ((inputIndexers tr).get ⟨i, hi⟩).Title ∧
      (indexerCats ((normalizeIndexers tr).get ⟨i, ho⟩)).length =
        (torznabCats ((inputIndexers tr).get ⟨i, hi⟩)).length ∧
      ∀ (j : Nat) (hj : j < (torznabCats ((inputIndexers tr).get ⟨i, hi⟩)).length)
        (hj' : j < (indexerCats ((normalizeIndexers tr).get ⟨i, ho⟩)).length),
        ((indexerCats ((normalizeIndexers tr).get ⟨i, ho⟩)).get ⟨j, hj'⟩).ID =
          ((torznabCats ((inputIndexers tr).get ⟨i, hi⟩)).get ⟨j, hj⟩).ID ∧
        ((indexerCats ((normalizeIndexers tr).get ⟨i, ho⟩)).get ⟨j, hj'⟩).Name =
          ((torznabCats ((inputIndexers tr).get ⟨i, hi⟩)).get ⟨j, hj⟩).Name ∧
        (catSubcats ((indexerCats ((normalizeIndexers tr).get ⟨i, ho⟩)).get ⟨j, hj'⟩)).length =
          (torznabSubcats ((torznabCats ((inputIndexers tr).get ⟨i, hi⟩)).get ⟨j, hj⟩)).length ∧
        ∀ (k : Nat)
          (hk : k < (torznabSubcats ((torznabCats ((inputIndexers tr).get ⟨i, hi⟩)).get ⟨j, hj⟩)).length)
          (hk' : k < (catSubcats ((indexerCats ((normalizeIndexers tr).get ⟨i, ho⟩)).get ⟨j, hj'⟩)).length),
          ((catSubcats ((indexerCats ((normalizeIndexers tr).get ⟨i, ho⟩)).get ⟨j, hj'⟩)).get ⟨k, hk'⟩).ID =
            ((torznabSubcats ((torznabCats ((inputIndexers tr).get ⟨i, hi⟩)).get ⟨j, hj⟩)).get ⟨k, hk⟩).ID ∧
          ((catSubcats ((indexerCats ((normalizeIndexers tr).get ⟨i, ho⟩)).get ⟨j, hj'⟩)).get ⟨k, hk'⟩).Name =
            ((torznabSubcats ((torznabCats ((inputIndexers tr).get ⟨i, hi⟩)).get ⟨j, hj⟩)).get ⟨k, hk⟩).Name := by
  refine ⟨by simp [normalizeIndexers, inputIndexers], ?_⟩
  intro i hi ho
  rw [normalizeIndexers_get tr i hi ho]
  refine ⟨rfl, rfl, by rw [indexerCats_normalize]; simp, ?_⟩
  intro j hj hj'
  have hjget : (indexerCats (normalizeIndexer ((inputIndexers tr).get ⟨i, hi⟩))).get
      ⟨j, hj'⟩ =
      normalizeCategory ((torznabCats ((inputIndexers tr).get ⟨i, hi⟩)).get ⟨j, hj⟩) := by
    simp [indexerCats_normalize, List.get_eq_getElem, List.getElem_map]
  rw [hjget]
  refine ⟨rfl, rfl, by rw [catSubcats_normalize]; simp, ?_⟩
  intro k hk hk'
  have hkget : (catSubcats (normalizeCategory
      ((torznabCats ((inputIndexers tr).get ⟨i, hi⟩)).get ⟨j, hj⟩))).get ⟨k, hk'⟩ =
      normalizeSubcat ((torznabSubcats
        ((torznabCats ((inputIndexers tr).get ⟨i, hi⟩)).get ⟨j, hj⟩)).get ⟨k, hk⟩) := by
    simp [catSubcats_normalize, List.get_eq_getElem, List.getElem_map]
  rw [hkget]
  exact ⟨rfl, rfl⟩

/-- Witness for C1 at `sampleResponse`: two indexers in order, the first
with two categories (`2000`/`Movies` with two subcats, `5000`/`TV` with
none), everything read off the theorem at concrete indices. -/
theorem getIndexers_preserves_category_structure_witness :
    (normalizeIndexers sampleResponse).length = (inputIndexers sampleResponse).length ∧
    ((normalizeIndexers sampleResponse).get ⟨0, by decide⟩).ID = "ix1" ∧
    ((normalizeIndexers sampleResponse).get ⟨1, by decide⟩).Name = "Two" ∧
    (indexerCats ((normalizeIndexers sampleResponse).get ⟨0, by decide⟩)).length = 2 ∧
    ((indexerCats ((normalizeIndexers sampleResponse).get ⟨0, by decide⟩)).get
      ⟨0, by decide⟩).ID = 2000 ∧
    (catSubcats ((indexerCats ((normalizeIndexers sampleResponse).get ⟨0, by decide⟩)).get
      ⟨0, by decide⟩)).length = 2 ∧
    ((catSubcats ((indexerCats ((normalizeIndexers sampleResponse).get ⟨0, by decide⟩)).get
      ⟨0, by decide⟩)).get ⟨1, by decide⟩).Name = "Movies/UHD" := by
  have h := getIndexers_preserves_category_structure sampleResponse
  have h0 := h.2 0 (by decide) (by decide)
  have h1 := h.2 1 (by decide) (by decide)
  have hj := h0.2.2.2 0 (by decide) (by decide)
  have hk := hj.2.2.2 1 (by decide) (by decide)
  exact ⟨h.1, h0.1.trans (by decide), h1.2.1.trans (by decide),
    h0.2.2.1.trans (by decide), hj.1.trans (by decide),
    hj.2.2.1.trans (by decide), hk.2.trans (by decide)⟩

/-- C7: the normalizer never emits an absent categories block — an indexer
with zero decoded categories yields `some []` (an empty, non-nil slice),
and a category with zero decoded subcats yields `Subcats = some []`. -/
theorem normalizer_empty_categories_empty_not_absent (t : TorznabIndexer) :
    (normalizeIndexer t).Categories ≠ none ∧
    (torznabCats t = [] → (normalizeIndexer t).Categories = some []) ∧
    ∀ (j : Nat) (hj : j < (torznabCats t).length)
      (hj' : j < (indexerCats (normalizeIndexer t)).length),
      torznabSubcats ((torznabCats t).get ⟨j, hj⟩) = [] →
      ((indexerCats (normalizeIndexer t)).get ⟨j, hj'⟩).Subcats = some [] := by
  refine ⟨by simp [normalizeIndexer], ?_, ?_⟩
  · intro h
    have hc : (normalizeIndexer t).Categories =
        some ((torznabCats t).map normalizeCategory) := rfl
    rw [hc, h]
    rfl
  · intro j hj hj' hsub
    have hget : (indexerCats (normalizeIndexer t)).get ⟨j, hj'⟩ =
        normalizeCategory ((torznabCats t).get ⟨j, hj⟩) := by
      simp [indexerCats_normalize, List.get_eq_getElem, List.getElem_map]
    have hsc : (normalizeCategory ((torznabCats t).get ⟨j, hj⟩)).Subcats =
        some ((torznabSubcats ((torznabCats t).get ⟨j, hj⟩)).map normalizeSubcat) := rfl
    rw [hget, hsc, hsub]
    rfl

/-- Witness for C7: the bare sample indexer (nil category slice) normalizes
to `some []`, and the `TV` category (nil subcat slice) to `Subcats = some []`. -/
theorem normalizer_empty_categories_empty_not_absent_witness :
    (normalizeIndexer sampleIndexerBare).Categories = some [] ∧
    ((indexerCats (normalizeIndexer sampleIndexerFull)).get ⟨1, by decide⟩).Subcats =
      some [] := by
  have hbare := (normalizer_empty_categories_empty_not_absent sampleIndexerBare).2.1
    (by decide)
  have hfull := (normalizer_empty_categories_empty_not_absent sampleIndexerFull).2.2
    1 (by decide) (by decide) (by decide)
  exact ⟨hbare, hfull⟩

/-- C10: every normalized indexer carries a present (non-nil) `Caps` block,
even when the decoded indexer came from an `indexer` element with no `caps`
child. -/
theorem normalized_caps_always_present (tr : TorznabIndexersResponse) :
    (∀ idx ∈ normalizeIndexers tr, ∃ cp : Caps, idx.Caps = some cp) ∧
    (∀ (e : XMLElem) (t : TorznabIndexer),
      (∀ ch ∈ e.children, ch.name ≠ "caps") → decodeIndexer e = .ok t →
      ∃ cp : Caps, (normalizeIndexer t).Caps = some cp) := by
  constructor
  · intro idx hidx
    rw [normalizeIndexers] at hidx
    obtain ⟨t, _, rfl⟩ := List.mem_map.mp hidx
    exact ⟨_, rfl⟩
  · intro e t _ _
    exact ⟨_, rfl⟩

/-- Witness for C10: the minimal indexer element has no `caps` child, and
its normalized form still carries `some` caps. -/
theorem normalized_caps_always_present_witness :
    (∃ cp : Caps, (normalizeIndexer sampleIndexerBare).Caps = some cp) ∧
    (∃ cp : Caps, (normalizeIndexer torznabIndexerMinimal).Caps = some cp) := by
  have h1 := (normalized_caps_always_present sampleResponse).1
    (normalizeIndexer sampleIndexerBare)
    (by rw [normalizeIndexers]; exact List.mem_map_of_mem _ (by decide))
  have h2 := (normalized_caps_always_present sampleResponse).2
    xmlIndexerMinimal torznabIndexerMinimal (by decide) (by rfl)
  exact ⟨h1, h2⟩

/-- C9: every public operation returns the client it was given — base
address, API key and transport handle are identical before and after the
call, whatever the oracles and the response. -/
theorem operations_leave_client_unchanged
    (parseURL : String → Except String URL)
    (jsonDecode : String → Except String SearchResponse)
    (xmlText : String → Except String XMLElem)
    (configDecode : String → Except String (List (String × JSONValue)))
    (c : GoClient) (q iid link : String) :
    ((searchOp parseURL jsonDecode c q).1.baseURL = c.baseURL ∧
      (searchOp parseURL jsonDecode c q).1.apiKey = c.apiKey ∧
      (searchOp parseURL jsonDecode c q).1.transport = c.transport) ∧
    ((searchWithIndexerOp parseURL jsonDecode c iid q).1.baseURL = c.baseURL ∧
      (searchWithIndexerOp parseURL jsonDecode c iid q).1.apiKey = c.apiKey ∧
      (searchWithIndexerOp parseURL jsonDecode c iid q).1.transport = c.transport) ∧
    ((getIndexersOp parseURL xmlText c).1.baseURL = c.baseURL ∧
      (getIndexersOp parseURL xmlText c).1.apiKey = c.apiKey ∧
      (getIndexersOp parseURL xmlText c).1.transport = c.transport) ∧
    ((downloadTorrentOp parseURL c link).1.baseURL = c.baseURL ∧
      (downloadTorrentOp parseURL c link).1.apiKey = c.apiKey ∧
      (downloadTorrentOp parseURL c link).1.transport = c.transport) ∧
    ((getServerConfigOp parseURL configDecode c).1.baseURL = c.baseURL ∧
      (getServerConfigOp parseURL configDecode c).1.apiKey = c.apiKey ∧
      (getServerConfigOp parseURL configDecode c).1.transport = c.transport) :=
  ⟨⟨rfl, rfl, rfl⟩, ⟨rfl, rfl, rfl⟩, ⟨rfl, rfl, rfl⟩, ⟨rfl, rfl, rfl⟩,
    ⟨rfl, rfl, rfl⟩⟩


/-- C2: `DownloadTorrent` fetches an external-host link exactly as given;
a link on the configured host lacking an `apikey` parameter is fetched at
the same scheme/host/path with `apikey` appended (other parameters
untouched); a same-host link already carrying an `apikey` value is fetched
unmodified; and the operation consults the transport exactly at that
target URL. -/
theorem downloadTorrent_host_apikey_routing (c : GoClient) (linkU baseU : URL) :
    (linkU.host ≠ baseU.host → downloadTarget c linkU baseU = linkU) ∧
    (linkU.host = baseU.host → valuesGet linkU.query "apikey" = "" →
      (downloadTarget c linkU baseU).scheme = linkU.scheme ∧
      (downloadTarget c linkU baseU).host = linkU.host ∧
      (downloadTarget c linkU baseU).path = linkU.path ∧
      valuesGet (downloadTarget c linkU baseU).query "apikey" = c.apiKey ∧
      (∀ k, k ≠ "apikey" →
        valuesGet (downloadTarget c linkU baseU).query k = valuesGet linkU.query k)) ∧
    (linkU.host = baseU.host → valuesGet linkU.query "apikey" ≠ "" →
      downloadTarget c linkU baseU = linkU) ∧
    (∀ (parseURL : String → Except String URL) (link : String),
      parseURL link = .ok linkU → parseURL c.baseURL = .ok baseU →
      (downloadTorrentOp parseURL c link).2 =
        downloadHandle (c.transport (downloadTarget c linkU baseU))) := by
  refine ⟨?_, ?_, ?_, ?_⟩
  · intro h
    rw [downloadTarget, if_pos h]
  · intro hh hk
    have hne : ¬linkU.host ≠ baseU.host := by simp [hh]
    rw [downloadTarget, if_neg hne, if_pos hk]
    exact ⟨rfl, rfl, rfl, valuesGet_set_self _ _ _,
      fun k hk' => valuesGet_set_other _ _ _ _ hk'⟩
  · intro hh hk
    have hne : ¬linkU.host ≠ baseU.host := by simp [hh]
    rw [downloadTarget, if_neg hne, if_neg hk]
  · intro parseURL link h1 h2
    simp only [downloadTorrentOp, h1, h2]

/-- Witness for C2 at a local client: the external link is fetched as-is,
the keyless local link gets `apikey=test-api-key` appended next to its
`file=x` parameter on the same path, and the already-keyed local link is
fetched unmodified. -/
theorem downloadTorrent_host_apikey_routing_witness :
    downloadTarget (clientWith { status := 200, body := "TORRENTDATA" })
      dlLinkExternal sampleBase = dlLinkExternal ∧
    (downloadTarget (clientWith { status := 200, body := "TORRENTDATA" })
      dlLinkLocal sampleBase).path = "/dl/test" ∧
    valuesGet (downloadTarget (clientWith { status := 200, body := "TORRENTDATA" })
      dlLinkLocal sampleBase).query "apikey" = "test-api-key" ∧
    valuesGet (downloadTarget (clientWith { status := 200, body := "TORRENTDATA" })
      dlLinkLocal sampleBase).query "file" = "x" ∧
    downloadTarget (clientWith { status := 200, body := "TORRENTDATA" })
      dlLinkKeyed sampleBase = dlLinkKeyed := by
  have hext := (downloadTorrent_host_apikey_routing
    (clientWith { status := 200, body := "TORRENTDATA" }) dlLinkExternal sampleBase).1
    (by decide)
  have hloc := (downloadTorrent_host_apikey_routing
    (clientWith { status := 200, body := "TORRENTDATA" }) dlLinkLocal sampleBase).2.1
    (by decide) (by decide)
  have hkey := (downloadTorrent_host_apikey_routing
    (clientWith { status := 200, body := "TORRENTDATA" }) dlLinkKeyed sampleBase).2.2.1
    (by decide) (by decide)
  exact ⟨hext, hloc.2.2.1, hloc.2.2.2.1,
    (hloc.2.2.2.2 "file" (by decide)).trans (by decide), hkey⟩


/-- C4: when a non-200 response body carries upstream error text (such as
the description of `<error code="100" description="Invalid API Key">`),
the error `GetIndexers` returns contains that text verbatim as a
substring. -/
theorem upstream_error_description_surfaced
    (parseURL : String → Except String URL)
    (xmlText : String → Except String XMLElem)
    (c : GoClient) (baseU : URL) (resp : HTTPResponse) (desc : String)
    (h1 : parseURL c.baseURL = .ok baseU)
    (h2 : c.transport (getIndexersRequest baseU c) = .ok resp)
    (h3 : resp.status ≠ 200)
    (h4 : isSubstr desc resp.body) :
    ∃ msg, (getIndexersOp parseURL xmlText c).2 = .error msg ∧
      isSubstr desc msg := by
  have hd := doGet_non200 parseURL c "/api/v2.0/indexers/all/results/torznab"
    (getIndexersParams c) baseU resp h1 h2 h3
  refine ⟨"get indexers error: " ++ ("unexpected response code: " ++
    (toString resp.status ++ (", response: " ++ resp.body))), ?_, ?_⟩
  · simp only [getIndexersOp]
    rw [hd]
  · exact isSubstr_wrap _ (isSubstr_wrap _ (isSubstr_wrap _ (isSubstr_wrap _ h4)))

/-- Witness for C4: a 401 response whose body is the upstream invalid-key
error element produces a `GetIndexers` error containing the description. -/
theorem upstream_error_description_surfaced_witness :
    ∃ msg, (getIndexersOp (constParse sampleBase) (constXml xmlRootMinimal)
      (clientWith { status := 401, body := invalidKeyBody })).2 = .error msg ∧
      isSubstr "Invalid API Key" msg := by
  exact upstream_error_description_surfaced (constParse sampleBase)
    (constXml xmlRootMinimal) (clientWith { status := 401, body := invalidKeyBody })
    sampleBase { status := 401, body := invalidKeyBody } "Invalid API Key"
    rfl rfl (by decide)
    ⟨"<error code=\"100\" description=\"", "\" />", by decide⟩

/-- C5: `TestConnection` issues one GET against the indexers endpoint with
only the `apikey` parameter, succeeds on any 200 response no matter what
the body holds (it is discarded, never decoded), and errors on a non-200
response or a failed transport. -/
theorem testConnection_contract (parseURL : String → Except String URL)
    (c : GoClient) (baseU : URL) (hbase : parseURL c.baseURL = .ok baseU) :
    (valuesSet [] "apikey" c.apiKey = [("apikey", c.apiKey)]) ∧
    ((testConnectionRequest baseU c).path = "/api/v2.0/indexers" ∧
      (testConnectionRequest baseU c).host = baseU.host ∧
      (testConnectionRequest baseU c).query = [("apikey", c.apiKey)]) ∧
    (∀ resp : HTTPResponse,
      c.transport (testConnectionRequest baseU c) = .ok resp →
      resp.status = 200 → (testConnectionOp parseURL c).2 = .ok ()) ∧
    (∀ resp : HTTPResponse,
      c.transport (testConnectionRequest baseU c) = .ok resp →
      resp.status ≠ 200 → ∃ msg, (testConnectionOp parseURL c).2 = .error msg) ∧
    (∀ e : String, c.transport (testConnectionRequest baseU c) = .error e →
      ∃ msg, (testConnectionOp parseURL c).2 = .error msg) := by
  refine ⟨rfl, ⟨rfl, rfl, rfl⟩, ?_, ?_, ?_⟩
  · intro resp hresp hs
    simp only [testConnectionOp]
    rw [doGet_200 parseURL c "/api/v2.0/indexers" (valuesSet [] "apikey" c.apiKey)
      baseU resp hbase hresp hs]
  · intro resp hresp hs
    simp only [testConnectionOp]
    rw [doGet_non200 parseURL c "/api/v2.0/indexers" (valuesSet [] "apikey" c.apiKey)
      baseU resp hbase hresp hs]
    exact ⟨_, rfl⟩
  · intro e hresp
    simp only [testConnectionOp]
    rw [doGet_neterr parseURL c "/api/v2.0/indexers" (valuesSet [] "apikey" c.apiKey)
      baseU e hbase hresp]
    exact ⟨_, rfl⟩

/-- Witness for C5: a 200 response whose body is not decodable as anything
still passes the connection test. -/
theorem testConnection_contract_witness :
    (testConnectionOp (constParse sampleBase)
      (clientWith { status := 200, body := "this is not json or xml" })).2 =
      .ok () := by
  exact (testConnection_contract (constParse sampleBase)
    (clientWith { status := 200, body := "this is not json or xml" })
    sampleBase rfl).2.2.1 { status := 200, body := "this is not json or xml" } rfl rfl

/-- C6: `GetIndexers` requests the Torznab indexers path with exactly the
parameters `apikey`, `t=indexers` and `configured=true`; on a 200 response
it decodes the body as XML and returns the normalized indexers; and the
transport is consulted only at that one request. -/
theorem getIndexers_request_contract (parseURL : String → Except String URL)
    (xmlText : String → Except String XMLElem)
    (c : GoClient) (baseU : URL) (hbase : parseURL c.baseURL = .ok baseU) :
    (getIndexersParams c =
      [("apikey", c.apiKey), ("t", "indexers"), ("configured", "true")]) ∧
    ((getIndexersRequest baseU c).path = "/api/v2.0/indexers/all/results/torznab" ∧
      (getIndexersRequest baseU c).host = baseU.host ∧
      (getIndexersRequest baseU c).scheme = baseU.scheme ∧
      (getIndexersRequest baseU c).query = getIndexersParams c) ∧
    (∀ (resp : HTTPResponse) (root : XMLElem) (tr : TorznabIndexersResponse),
      c.transport (getIndexersRequest baseU c) = .ok resp → resp.status = 200 →
      xmlText resp.body = .ok root → decodeIndexersResponse root = .ok tr →
      (getIndexersOp parseURL xmlText c).2 = .ok (normalizeIndexers tr)) ∧
    (∀ c' : GoClient, c'.baseURL = c.baseURL → c'.apiKey = c.apiKey →
      c'.transport (getIndexersRequest baseU c) =
        c.transport (getIndexersRequest baseU c) →
      (getIndexersOp parseURL xmlText c').2 = (getIndexersOp parseURL xmlText c).2) := by
  refine ⟨rfl, ⟨rfl, rfl, rfl, rfl⟩, ?_, ?_⟩
  · intro resp root tr hresp hs hxml hdec
    simp only [getIndexersOp,
      doGet_200 parseURL c "/api/v2.0/indexers/all/results/torznab"
        (getIndexersParams c) baseU resp hbase hresp hs, hxml, hdec]
  · intro c' hb hk ht
    have hparams : getIndexersParams c' = getIndexersParams c := by
      simp only [getIndexersParams, hk]
    have hdg : doGet parseURL c' "/api/v2.0/indexers/all/results/torznab"
        (getIndexersParams c') =
        doGet parseURL c "/api/v2.0/indexers/all/results/torznab"
          (getIndexersParams c) := by
      simp only [getIndexersRequest] at ht
      simp only [doGet, hb, hbase, hparams, ht]
    simp only [getIndexersOp, hdg]

/-- Witness for C6: concrete parameter list, and a 200 response routed
through the oracles yields the normalized minimal indexer. -/
theorem getIndexers_request_contract_witness :
    getIndexersParams (clientWith { status := 200, body := "xmlbody" }) =
      [("apikey", "test-api-key"), ("t", "indexers"), ("configured", "true")] ∧
    (getIndexersOp (constParse sampleBase) (constXml xmlRootMinimal)
      (clientWith { status := 200, body := "xmlbody" })).2 =
      .ok (normalizeIndexers { Indexers := some [torznabIndexerMinimal] }) := by
  have h := getIndexers_request_contract (constParse sampleBase)
    (constXml xmlRootMinimal) (clientWith { status := 200, body := "xmlbody" })
    sampleBase rfl
  exact ⟨h.1, h.2.2.1 { status := 200, body := "xmlbody" } xmlRootMinimal
    { Indexers := some [torznabIndexerMinimal] } rfl rfl rfl rfl⟩


/-- C8: every operation that receives an HTTP response with a status other
than 200 returns an error whose message contains the numeric status code,
and no decoded value. -/
theorem non200_error_contains_status_code :
    (∀ (parseURL : String → Except String URL)
      (jsonDecode : String → Except String SearchResponse) (c : GoClient)
      (q : String) (baseU : URL) (resp : HTTPResponse),
      parseURL c.baseURL = .ok baseU →
      c.transport (requestURL baseU "/api/v2.0/indexers/all/results"
        (searchParams c q)) = .ok resp →
      resp.status ≠ 200 →
      ∃ msg, (searchOp parseURL jsonDecode c q).2 = .error msg ∧
        isSubstr (toString resp.status) msg) ∧
    (∀ (parseURL : String → Except String URL)
      (jsonDecode : String → Except String SearchResponse) (c : GoClient)
      (iid q : String) (baseU : URL) (resp : HTTPResponse),
      parseURL c.baseURL = .ok baseU →
      c.transport (requestURL baseU ("/api/v2.0/indexers/" ++ (iid ++ "/results"))
        (searchParams c q)) = .ok resp →
      resp.status ≠ 200 →
      ∃ msg, (searchWithIndexerOp parseURL jsonDecode c iid q).2 = .error msg ∧
        isSubstr (toString resp.status) msg) ∧
    (∀ (parseURL : String → Except String URL)
      (xmlText : String → Except String XMLElem) (c : GoClient)
      (baseU : URL) (resp : HTTPResponse),
      parseURL c.baseURL = .ok baseU →
      c.transport (getIndexersRequest baseU c) = .ok resp →
      resp.status ≠ 200 →
      ∃ msg, (getIndexersOp parseURL xmlText c).2 = .error msg ∧
        isSubstr (toString resp.status) msg) ∧
    (∀ (parseURL : String → Except String URL)
      (configDecode : String → Except String (List (String × JSONValue)))
      (c : GoClient) (baseU : URL) (resp : HTTPResponse),
      parseURL c.baseURL = .ok baseU →
      c.transport (requestURL baseU "/api/v2.0/server/config"
        (valuesSet [] "apikey" c.apiKey)) = .ok resp →
      resp.status ≠ 200 →
      ∃ msg, (getServerConfigOp parseURL configDecode c).2 = .error msg ∧
        isSubstr (toString resp.status) msg) ∧
    (∀ (parseURL : String → Except String URL) (c : GoClient)
      (baseU : URL) (resp : HTTPResponse),
      parseURL c.baseURL = .ok baseU →
      c.transport (testConnectionRequest baseU c) = .ok resp →
      resp.status ≠ 200 →
      ∃ msg, (testConnectionOp parseURL c).2 = .error msg ∧
        isSubstr (toString resp.status) msg) ∧
    (∀ (parseURL : String → Except String URL) (c : GoClient)
      (link : String) (linkU baseU : URL) (resp : HTTPResponse),
      parseURL link = .ok linkU → parseURL c.baseURL = .ok baseU →
      c.transport (downloadTarget c linkU baseU) = .ok resp →
      resp.status ≠ 200 →
      ∃ msg, (downloadTorrentOp parseURL c link).2 = .err msg ∧
        isSubstr (toString resp.status) msg) := by
  refine ⟨?_, ?_, ?_, ?_, ?_, ?_⟩
  · intro parseURL jsonDecode c q baseU resp h1 h2 h3
    refine ⟨"search error: " ++ ("unexpected response code: " ++
      (toString resp.status ++ (", response: " ++ resp.body))), ?_, ?_⟩
    · simp only [searchOp]
      rw [doGet_non200 parseURL c "/api/v2.0/indexers/all/results"
        (searchParams c q) baseU resp h1 h2 h3]
    · exact isSubstr_wrap _ (isSubstr_wrap _ (isSubstr_head _ _))
  · intro parseURL jsonDecode c iid q baseU resp h1 h2 h3
    refine ⟨"search error: " ++ ("unexpected response code: " ++
      (toString resp.status ++ (", response: " ++ resp.body))), ?_, ?_⟩
    · simp only [searchWithIndexerOp]
      rw [doGet_non200 parseURL c ("/api/v2.0/indexers/" ++ (iid ++ "/results"))
        (searchParams c q) baseU resp h1 h2 h3]
    · exact isSubstr_wrap _ (isSubstr_wrap _ (isSubstr_head _ _))
  · intro parseURL xmlText c baseU resp h1 h2 h3
    refine ⟨"get indexers error: " ++ ("unexpected response code: " ++
      (toString resp.status ++ (", response: " ++ resp.body))), ?_, ?_⟩
    · simp only [getIndexersOp]
      rw [doGet_non200 parseURL c "/api/v2.0/indexers/all/results/torznab"
        (getIndexersParams c) baseU resp h1 h2 h3]
    · exact isSubstr_wrap _ (isSubstr_wrap _ (isSubstr_head _ _))
  · intro parseURL configDecode c baseU resp h1 h2 h3
    refine ⟨"get server config error: " ++ ("unexpected response code: " ++
      (toString resp.status ++ (", response: " ++ resp.body))), ?_, ?_⟩
    · simp only [getServerConfigOp]
      rw [doGet_non200 parseURL c "/api/v2.0/server/config"
        (valuesSet [] "apikey" c.apiKey) baseU resp h1 h2 h3]
    · exact isSubstr_wrap _ (isSubstr_wrap _ (isSubstr_head _ _))
  · intro parseURL c baseU resp h1 h2 h3
    refine ⟨"connection test failed: " ++ ("unexpected response code: " ++
      (toString resp.status ++ (", response: " ++ resp.body))), ?_, ?_⟩
    · simp only [testConnectionOp]
      rw [doGet_non200 parseURL c "/api/v2.0/indexers"
        (valuesSet [] "apikey" c.apiKey) baseU resp h1 h2 h3]
    · exact isSubstr_wrap _ (isSubstr_wrap _ (isSubstr_head _ _))
  · intro parseURL c link linkU baseU resp h0 h1 h2 h3
    refine ⟨"download failed (" ++ (toString resp.status ++ ("): " ++ resp.body)),
      ?_, ?_⟩
    · simp only [downloadTorrentOp, h0, h1, downloadHandle, h2]
      rw [if_pos h3]
    · exact isSubstr_wrap _ (isSubstr_head _ _)

/-- Witness for C8: a 500 on the indexers endpoint and a 404 on a torrent
download both surface the numeric code in the error text. -/
theorem non200_error_contains_status_code_witness :
    (∃ msg, (getIndexersOp (constParse sampleBase) (constXml xmlRootMinimal)
      (clientWith { status := 500, body := "boom" })).2 = .error msg ∧
      isSubstr (toString (500 : Nat)) msg) ∧
    (∃ msg, (downloadTorrentOp dlParse
      (clientWith { status := 404, body := "not found" })
      "https://external.com/torrent.torrent").2 = .err msg ∧
      isSubstr (toString (404 : Nat)) msg) := by
  have h3 := non200_error_contains_status_code.2.2.1 (constParse sampleBase)
    (constXml xmlRootMinimal) (clientWith { status := 500, body := "boom" })
    sampleBase { status := 500, body := "boom" } rfl rfl (by decide)
  have h6 := non200_error_contains_status_code.2.2.2.2.2 dlParse
    (clientWith { status := 404, body := "not found" })
    "https://external.com/torrent.torrent" dlLinkExternal sampleBase
    { status := 404, body := "not found" } rfl rfl rfl (by decide)
  exact ⟨h3, h6⟩


/-- C3: an `indexer` element with no `description`/`link`/`language`/`type`
child decodes and normalizes to empty-string values for those fields, while
a missing nested search-mode element (`search`, `tv-search`, `movie-search`,
`music-search`, `audio-search`, `book-search`) yields an absent value in
the `Searching` block of the unified indexer — never a defaulted record. -/
theorem normalizer_missing_element_defaults (e : XMLElem) (t : TorznabIndexer)
    (hd : decodeIndexer e = .ok t) :
    ((∀ ch ∈ e.children, ch.name ≠ "description") →
      (normalizeIndexer t).Description = "") ∧
    ((∀ ch ∈ e.children, ch.name ≠ "link") →
      (normalizeIndexer t).SiteLink = "") ∧
    ((∀ ch ∈ e.children, ch.name ≠ "language") →
      (normalizeIndexer t).Language = "") ∧
    ((∀ ch ∈ e.children, ch.name ≠ "type") →
      (normalizeIndexer t).type' = "") ∧
    (∀ cp : Caps, (normalizeIndexer t).Caps = some cp →
      (missingSearchMode e "search" → cp.Searching.Search = none) ∧
      (missingSearchMode e "tv-search" → cp.Searching.TVSearch = none) ∧
      (missingSearchMode e "movie-search" → cp.Searching.MovieSearch = none) ∧
      (missingSearchMode e "music-search" → cp.Searching.MusicSearch = none) ∧
      (missingSearchMode e "audio-search" → cp.Searching.AudioSearch = none) ∧
      (missingSearchMode e "book-search" → cp.Searching.BookSearch = none)) := by
  refine ⟨?_, ?_, ?_, ?_, ?_⟩
  · intro hmiss
    exact decodeIndexer_text_empty (fun t => t.Description) "description"
      (fun t v cp => ⟨rfl, fun _ => rfl, fun h => absurd rfl h, fun _ => rfl,
        fun _ => rfl, fun _ => rfl⟩)
      (by decide) (fun _ _ => rfl) e t hmiss hd
  · intro hmiss
    exact decodeIndexer_text_empty (fun t => t.Link) "link"
      (fun t v cp => ⟨rfl, fun _ => rfl, fun _ => rfl, fun h => absurd rfl h,
        fun _ => rfl, fun _ => rfl⟩)
      (by decide) (fun _ _ => rfl) e t hmiss hd
  · intro hmiss
    exact decodeIndexer_text_empty (fun t => t.Language) "language"
      (fun t v cp => ⟨rfl, fun _ => rfl, fun _ => rfl, fun _ => rfl,
        fun h => absurd rfl h, fun _ => rfl⟩)
      (by decide) (fun _ _ => rfl) e t hmiss hd
  · intro hmiss
    exact decodeIndexer_text_empty (fun t => t.type') "type"
      (fun t v cp => ⟨rfl, fun _ => rfl, fun _ => rfl, fun _ => rfl,
        fun _ => rfl, fun h => absurd rfl h⟩)
      (by decide) (fun _ _ => rfl) e t hmiss hd
  · intro cp hcp
    have hx : some (normCaps t) = some cp := hcp
    obtain rfl := Option.some.inj hx
    refine ⟨?_, ?_, ?_, ?_, ?_, ?_⟩
    · intro hm
      show convertSearchType t.Caps.Searching.Search = none
      rw [decodeIndexer_searching_none (fun s => s.Search) "search"
        searchingStep_preserve_search rfl e t hm hd]
      rfl
    · intro hm
      show convertSearchType t.Caps.Searching.TVSearch = none
      rw [decodeIndexer_searching_none (fun s => s.TVSearch) "tv-search"
        searchingStep_preserve_tv rfl e t hm hd]
      rfl
    · intro hm
      show convertSearchType t.Caps.Searching.MovieSearch = none
      rw [decodeIndexer_searching_none (fun s => s.MovieSearch) "movie-search"
        searchingStep_preserve_movie rfl e t hm hd]
      rfl
    · intro hm
      show convertSearchType t.Caps.Searching.MusicSearch = none
      rw [decodeIndexer_searching_none (fun s => s.MusicSearch) "music-search"
        searchingStep_preserve_music rfl e t hm hd]
      rfl
    · intro hm
      show convertSearchType t.Caps.Searching.AudioSearch = none
      rw [decodeIndexer_searching_none (fun s => s.AudioSearch) "audio-search"
        searchingStep_preserve_audio rfl e t hm hd]
      rfl
    · intro hm
      show convertSearchType t.Caps.Searching.BookSearch = none
      rw [decodeIndexer_searching_none (fun s => s.BookSearch) "book-search"
        searchingStep_preserve_book rfl e t hm hd]
      rfl

/-- Witness for C3: the minimal indexer element (only an id attribute and a
title child) normalizes to empty strings for the optional text fields and
to absent search modes in the caps block. -/
theorem normalizer_missing_element_defaults_witness :
    (normalizeIndexer torznabIndexerMinimal).Description = "" ∧
    (normalizeIndexer torznabIndexerMinimal).SiteLink = "" ∧
    (normalizeIndexer torznabIndexerMinimal).Language = "" ∧
    (normalizeIndexer torznabIndexerMinimal).type' = "" ∧
    (∃ cp : Caps, (normalizeIndexer torznabIndexerMinimal).Caps = some cp ∧
      cp.Searching.Search = none ∧ cp.Searching.TVSearch = none ∧
      cp.Searching.MovieSearch = none ∧ cp.Searching.MusicSearch = none ∧
      cp.Searching.AudioSearch = none ∧ cp.Searching.BookSearch = none) := by
  have h := normalizer_missing_element_defaults xmlIndexerMinimal
    torznabIndexerMinimal rfl
  have hs := h.2.2.2.2 (normCaps torznabIndexerMinimal) rfl
  exact ⟨h.1 (by decide), h.2.1 (by decide), h.2.2.1 (by decide),
    h.2.2.2.1 (by decide),
    ⟨normCaps torznabIndexerMinimal, rfl, hs.1 (by decide), hs.2.1 (by decide),
      hs.2.2.1 (by decide), hs.2.2.2.1 (by decide), hs.2.2.2.2.1 (by decide),
      hs.2.2.2.2.2 (by decide)⟩⟩

end Jackett
